import Mathlib

/-!
Verification of the invocation-lifecycle and locking subsystem of nori
(src/nori.py): the elapsed-time gate, the exclusive-execution lock
directory, the lock-contention alert throttling protocol, the cleanup
callback, and the manual silence/unsilence/disable/enable operations.

The filesystem state relevant to this subsystem is embedded as a small
record (`FS`): existence of the lock directory, existence of the two
semaphore files inside it, the lock-alert file (a sibling of the lock
directory, with its mtime when present), and the stat outcome for the
last-started file.  Time is a natural-number clock in seconds.
Filesystem faults that the code distinguishes are modelled explicitly:
the stat of the last-started file can report ENOENT or another error,
and the unlink of the lock-alert file can fail.
-/

namespace Nori

/-- Exit value constants, nori.py lines 679-682. -/
def NO_ERROR_EXITVAL : Nat := 0

/-- Startup-error exit value, nori.py line 681. -/
def STARTUP_EXITVAL : Nat := 10

/-- Lock-contention exit value, nori.py line 682. -/
def LOCKFILE_EXITVAL : Nat := 11

/-- Name of the alert-silence semaphore file, nori.py line 687. -/
def LF_ALERTS_SILENCED : String := "lf_alerts_silenced"

/-- Name of the disable semaphore file, nori.py line 688. -/
def SCRIPT_DISABLED : String := "script_disabled"

/-- Default for the lockfile_alert_file setting, from
apply_config_defaults_extra (nori.py lines 4911-4913): the lockfile
path with the suffix .alert appended, hence a sibling of the lock
directory, not a child of it. -/
def lockfile_alert_file_default (lockfile : String) : String :=
  lockfile ++ ".alert"

/-- Outcome of stat-ing the last-started file: found with an mtime,
missing (errno ENOENT), or any other OSError. -/
inductive StatR where
  | found (mtime : Nat)
  | enoent
  | error
deriving DecidableEq, Repr

/-- The filesystem state the locking subsystem reads and writes.
`lockdir` is existence of the lock directory; `silenced` and
`disabled` are existence of the two semaphore files as children of the
lock directory (meaningful only while `lockdir` is true, since the
join path cannot exist otherwise); `alertFile` is the lock-alert file
(a sibling path), with its mtime when present; `lastStarted` is the
stat outcome for the last-started file. -/
structure FS where
  lockdir : Bool
  silenced : Bool
  disabled : Bool
  alertFile : Option Nat
  lastStarted : StatR
deriving DecidableEq, Repr

/-- Existence of the path lockfile/LF_ALERTS_SILENCED: the join exists
only when the lock directory itself exists. -/
def FS.silencedExists (fs : FS) : Bool :=
  fs.lockdir && fs.silenced

/-- Existence of the path lockfile/SCRIPT_DISABLED. -/
def FS.disabledExists (fs : FS) : Bool :=
  fs.lockdir && fs.disabled

/-- file_newer_than (nori.py lines 2420-2432): the file is newer than
`num_min` minutes when now minus its mtime is strictly less than
`num_min * 60` seconds.  The comparison is over integers so that an
mtime in the future still counts as newer, as in the source. -/
def file_newer_than (now mtime num_min : Nat) : Bool :=
  (now : Int) - (mtime : Int) < (num_min : Int) * 60

/-- The configuration settings the subsystem reads: run_every and
if_running, both in minutes (0 disables the respective check). -/
structure Cfg where
  run_every : Nat
  if_running : Nat
deriving DecidableEq, Repr

/-- Result of one check_status invocation: `exit = some v` means the
process terminated via sys.exit(v); `exit = none` means control
returned to the caller (the task body runs).  `alerts` counts the
alert emails sent during the invocation, and `fs` is the filesystem
state afterwards. -/
structure CheckResult where
  exit : Option Nat
  alerts : Nat
  fs : FS
deriving DecidableEq, Repr

/-- The elapsed-time gate, the first phase of check_status (nori.py
lines 4196-4224).  Returns `some v` when the gate exits the process
with status v, `none` when execution continues to lock acquisition.
With run_every = 0 the gate is disabled.  Otherwise the last-started
file is stat-ed: ENOENT is treated as not-newer (never run before), and
any other stat error exits with the startup-error status.  A marker
newer than run_every exits with the no-error status. -/
def elapsed_gate (cfg : Cfg) (fs : FS) (now : Nat) : Option Nat :=
  if cfg.run_every = 0 then
    none
  else
    match fs.lastStarted with
    | .found m =>
        if file_newer_than now m cfg.run_every then some NO_ERROR_EXITVAL
        else none
    | .enoent => none
    | .error => some STARTUP_EXITVAL

/-- The lock-acquisition phase of check_status (nori.py lines
4228-4366): the os.mkdir attempt, the contention alert decision tree,
and on success the registration of the cleanup callback and the
clearing of the stale lock-alert file.  `unlinkAlertFails` injects a
non-ENOENT OSError into that unlink.  On contention: if the alert file
is absent it is touched, one alert is sent and the process exits with
the lock-contention status; otherwise, if if_running = 0, or the
silence semaphore is present, or the alert file is newer than
if_running minutes, no alert is sent; else the alert file is re-touched
and one more alert is sent.  All contention branches exit with the
lock-contention status.  The disable semaphore only changes the alert
message wording and is not consulted in any of these decisions. -/
def lock_phase (cfg : Cfg) (fs : FS) (now : Nat)
    (unlinkAlertFails : Bool) : CheckResult :=
  if fs.lockdir then
    match fs.alertFile with
    | none =>
        { exit := some LOCKFILE_EXITVAL, alerts := 1,
          fs := { fs with alertFile := some now } }
    | some m =>
        if cfg.if_running = 0 then
          { exit := some LOCKFILE_EXITVAL, alerts := 0, fs := fs }
        else if fs.silencedExists then
          { exit := some LOCKFILE_EXITVAL, alerts := 0, fs := fs }
        else if file_newer_than now m cfg.if_running then
          { exit := some LOCKFILE_EXITVAL, alerts := 0, fs := fs }
        else
          { exit := some LOCKFILE_EXITVAL, alerts := 1,
            fs := { fs with alertFile := some now } }
  else
    match fs.alertFile with
    | none =>
        { exit := none, alerts := 0, fs := { fs with lockdir := true } }
    | some _ =>
        if unlinkAlertFails then
          { exit := some STARTUP_EXITVAL, alerts := 0,
            fs := { fs with lockdir := true } }
        else
          { exit := none, alerts := 0,
            fs := { fs with lockdir := true, alertFile := none } }

/-- check_status (nori.py lines 4170-4366): the elapsed-time gate
followed, when the gate does not exit, by the lock phase. -/
def check_status (cfg : Cfg) (fs : FS) (now : Nat)
    (unlinkAlertFails : Bool) : CheckResult :=
  match elapsed_gate cfg fs now with
  | some v => { exit := some v, alerts := 0, fs := fs }
  | none => lock_phase cfg fs now unlinkAlertFails

/-- Result of the bare acquire step (the os.mkdir call in check_status,
nori.py lines 4231-4232): either the directory was created and the lock
acquired, or it already existed and the attempt is contended. -/
inductive AcquireResult where
  | acquired (fs : FS)
  | contended
deriving DecidableEq, Repr

/-- The atomic lock-directory creation: os.mkdir fails with EEXIST
exactly when the directory already exists. -/
def acquire (fs : FS) : AcquireResult :=
  if fs.lockdir then .contended
  else .acquired { fs with lockdir := true }

/-- lockfile_cleanup (nori.py lines 4147-4168), the exit callback
registered after acquisition: if the SCRIPT_DISABLED semaphore exists
inside the lock directory, the directory is left alone; otherwise
shutil.rmtree with ignore_errors removes the directory and its children
(the two semaphore files), silently doing nothing on failure.
`rmtreeOk` models whether the best-effort removal succeeds.  The
function is total: no error propagates to the caller. -/
def lockfile_cleanup (rmtreeOk : Bool) (fs : FS) : FS :=
  if fs.disabledExists then fs
  else if rmtreeOk then
    { fs with lockdir := false, silenced := false, disabled := false }
  else fs

/-- Result of a manual control operation: `exit = some v` means the
operation terminated the process via sys.exit(v); `exit = none` means
it completed and returned. -/
structure OpResult where
  exit : Option Nat
  fs : FS
deriving DecidableEq, Repr

/-- silence_lf_alerts (nori.py lines 4514-4555): exits with the
startup-error status when the lock directory does not exist or the
silence semaphore is already present; otherwise touches the silence
semaphore. -/
def silence_lf_alerts (fs : FS) : OpResult :=
  if !fs.lockdir then { exit := some STARTUP_EXITVAL, fs := fs }
  else if fs.silencedExists then { exit := some STARTUP_EXITVAL, fs := fs }
  else { exit := none, fs := { fs with silenced := true } }

/-- unsilence_lf_alerts (nori.py lines 4557-4601): exits with the
startup-error status when the silence semaphore is not present;
otherwise removes it. -/
def unsilence_lf_alerts (fs : FS) : OpResult :=
  if !fs.silencedExists then { exit := some STARTUP_EXITVAL, fs := fs }
  else { exit := none, fs := { fs with silenced := false } }

/-- disable_script (nori.py lines 4604-4661): exits with the
startup-error status when the disable semaphore is already present;
otherwise creates the lock directory if needed and touches the disable
semaphore. -/
def disable_script (fs : FS) : OpResult :=
  if fs.disabledExists then { exit := some STARTUP_EXITVAL, fs := fs }
  else { exit := none, fs := { fs with lockdir := true, disabled := true } }

/-- enable_script (nori.py lines 4663-4710): exits with the
startup-error status when the disable semaphore is not present;
otherwise removes it. -/
def enable_script (fs : FS) : OpResult :=
  if !fs.disabledExists then { exit := some STARTUP_EXITVAL, fs := fs }
  else { exit := none, fs := { fs with disabled := false } }

end Nori

namespace Nori

/-- C1: Lock mutual exclusion: when acquire (the atomic lock-directory
creation in check_status) succeeds, yielding state fs1, a second
acquire on fs1 with no intervening release reports contention; and
after release (lockfile_cleanup, with the removal succeeding) runs on
fs1 with no Disable Marker present, a subsequent acquire succeeds. -/
theorem C1_lock_mutual_exclusion (fs fs1 : FS)
    (hacq : acquire fs = .acquired fs1) :
    acquire fs1 = .contended ∧
    (fs1.disabledExists = false →
      acquire (lockfile_cleanup true fs1) =
        .acquired { lockfile_cleanup true fs1 with lockdir := true }) := by
  unfold acquire at hacq
  by_cases h : fs.lockdir
  · simp [h] at hacq
  · simp [h] at hacq
    refine ⟨?_, ?_⟩
    · simp [acquire, ← hacq]
    · intro hnd
      simp [lockfile_cleanup, hnd, acquire]

/-- Witness for C1 at a concrete state: the empty filesystem, acquire
succeeding, then contention, then release and re-acquisition. -/
theorem C1_lock_mutual_exclusion_witness :
    acquire ⟨true, false, false, none, .enoent⟩ = .contended ∧
    (FS.disabledExists ⟨true, false, false, none, .enoent⟩ = false →
      acquire (lockfile_cleanup true ⟨true, false, false, none, .enoent⟩) =
        .acquired { lockfile_cleanup true ⟨true, false, false, none, .enoent⟩
                      with lockdir := true }) :=
  C1_lock_mutual_exclusion ⟨false, false, false, none, .enoent⟩
    ⟨true, false, false, none, .enoent⟩ (by decide)

/-- C2: Elapsed-time gate: for run_every > 0, when the last-started
marker exists and is newer than run_every minutes, check_status exits
with the no-error status, sends no alert, and leaves the filesystem
unchanged (no lock-directory creation is attempted); when the marker is
missing (ENOENT) the gate is passed and the invocation behaves exactly
as the lock-acquisition phase; any other stat failure exits with the
startup-error status. -/
theorem C2_elapsed_time_gate (cfg : Cfg) (fs : FS) (now : Nat) (u : Bool)
    (hpos : 0 < cfg.run_every) :
    (∀ m, fs.lastStarted = .found m →
      file_newer_than now m cfg.run_every = true →
      check_status cfg fs now u =
        { exit := some NO_ERROR_EXITVAL, alerts := 0, fs := fs }) ∧
    (fs.lastStarted = .enoent →
      check_status cfg fs now u = lock_phase cfg fs now u) ∧
    (fs.lastStarted = .error →
      check_status cfg fs now u =
        { exit := some STARTUP_EXITVAL, alerts := 0, fs := fs }) := by
  have hne : ¬ cfg.run_every = 0 := Nat.pos_iff_ne_zero.mp hpos
  refine ⟨?_, ?_, ?_⟩
  · intro m hm hnt
    simp [check_status, elapsed_gate, hne, hm, hnt]
  · intro hm
    simp [check_status, elapsed_gate, hne, hm]
  · intro hm
    simp [check_status, elapsed_gate, hne, hm]

/-- Witness for C2 at concrete inputs: interval 60 minutes, marker 30
seconds old, gate blocks with exit status 0. -/
theorem C2_elapsed_time_gate_witness :
    check_status ⟨60, 1⟩ ⟨false, false, false, none, .found 100⟩ 130 false =
      { exit := some NO_ERROR_EXITVAL, alerts := 0,
        fs := ⟨false, false, false, none, .found 100⟩ } :=
  (C2_elapsed_time_gate ⟨60, 1⟩ ⟨false, false, false, none, .found 100⟩
    130 false (by decide)).1 100 rfl (by decide)

/-- C3: Unconditional contention exit status: whenever the lock
directory already exists, every branch of the alert decision tree
terminates the process with the lock-contention exit status 11, which
differs from both the no-error status 0 and the startup-error status
10; the lock phase never returns to the caller on contention. -/
theorem C3_contention_exit_status (cfg : Cfg) (fs : FS) (now : Nat)
    (u : Bool) (hheld : fs.lockdir = true) :
    (lock_phase cfg fs now u).exit = some LOCKFILE_EXITVAL ∧
    LOCKFILE_EXITVAL ≠ NO_ERROR_EXITVAL ∧
    LOCKFILE_EXITVAL ≠ STARTUP_EXITVAL := by
  refine ⟨?_, by decide, by decide⟩
  cases h : fs.alertFile with
  | none => simp [lock_phase, hheld, h]
  | some m =>
    simp only [lock_phase, hheld, if_true, h]
    split <;> try rfl
    split <;> try rfl
    split <;> rfl

/-- Witness for C3 at a concrete contended state. -/
theorem C3_contention_exit_status_witness :
    (lock_phase ⟨0, 2⟩ ⟨true, false, false, none, .enoent⟩ 5 false).exit =
        some LOCKFILE_EXITVAL ∧
    LOCKFILE_EXITVAL ≠ NO_ERROR_EXITVAL ∧
    LOCKFILE_EXITVAL ≠ STARTUP_EXITVAL :=
  C3_contention_exit_status ⟨0, 2⟩ ⟨true, false, false, none, .enoent⟩
    5 false (by decide)

end Nori

namespace Nori

/-- Helper: every contended invocation of the lock phase exits with the
lock-contention status, whatever the alert decision. -/
theorem lock_phase_exit_held (cfg : Cfg) (fs : FS) (now : Nat) (u : Bool)
    (hheld : fs.lockdir = true) :
    (lock_phase cfg fs now u).exit = some LOCKFILE_EXITVAL := by
  cases h : fs.alertFile with
  | none => simp [lock_phase, hheld, h]
  | some m =>
    simp only [lock_phase, hheld, if_true, h]
    split <;> try rfl
    split <;> try rfl
    split <;> rfl

/-- C4: Alert throttling by marker age: with if_running > 0 and neither
silence nor disable semaphore present, the first contention of an
episode (alert file absent) touches the alert file and sends exactly
one alert; a second contention while the alert file is younger than the
if_running window sends zero alerts and changes nothing; a third
contention after the window has passed re-touches the alert file and
sends exactly one more alert. -/
theorem C4_alert_throttling (cfg : Cfg) (fs : FS) (t1 t2 t3 : Nat)
    (u : Bool)
    (hheld : fs.lockdir = true)
    (hrun : 0 < cfg.if_running)
    (hsil : fs.silenced = false)
    (_hdis : fs.disabled = false)
    (hnone : fs.alertFile = none)
    (h12 : file_newer_than t2 t1 cfg.if_running = true)
    (h13 : file_newer_than t3 t1 cfg.if_running = false) :
    (lock_phase cfg fs t1 u).alerts = 1 ∧
    (lock_phase cfg fs t1 u).fs.alertFile = some t1 ∧
    (lock_phase cfg (lock_phase cfg fs t1 u).fs t2 u).alerts = 0 ∧
    (lock_phase cfg (lock_phase cfg fs t1 u).fs t2 u).fs =
      (lock_phase cfg fs t1 u).fs ∧
    (lock_phase cfg (lock_phase cfg (lock_phase cfg fs t1 u).fs t2 u).fs
        t3 u).alerts = 1 ∧
    (lock_phase cfg (lock_phase cfg (lock_phase cfg fs t1 u).fs t2 u).fs
        t3 u).fs.alertFile = some t3 := by
  have hne : ¬ cfg.if_running = 0 := Nat.pos_iff_ne_zero.mp hrun
  have h1 : lock_phase cfg fs t1 u =
      { exit := some LOCKFILE_EXITVAL, alerts := 1,
        fs := { fs with alertFile := some t1 } } := by
    simp [lock_phase, hheld, hnone]
  have h2 : lock_phase cfg { fs with alertFile := some t1 } t2 u =
      { exit := some LOCKFILE_EXITVAL, alerts := 0,
        fs := { fs with alertFile := some t1 } } := by
    simp [lock_phase, hheld, hne, FS.silencedExists, hsil, h12]
  have h3 : lock_phase cfg { fs with alertFile := some t1 } t3 u =
      { exit := some LOCKFILE_EXITVAL, alerts := 1,
        fs := { fs with alertFile := some t3 } } := by
    simp [lock_phase, hheld, hne, FS.silencedExists, hsil, h13]
  simp [h1, h2, h3]

/-- Witness for C4 at concrete inputs: if_running = 2 minutes,
contentions at t = 0, 60 and 200 seconds produce 1, 0 and 1 alerts. -/
theorem C4_alert_throttling_witness :
    (lock_phase ⟨0, 2⟩ ⟨true, false, false, none, .enoent⟩ 0 false).alerts
        = 1 ∧
    (lock_phase ⟨0, 2⟩ ⟨true, false, false, none, .enoent⟩ 0
        false).fs.alertFile = some 0 ∧
    (lock_phase ⟨0, 2⟩
      (lock_phase ⟨0, 2⟩ ⟨true, false, false, none, .enoent⟩ 0 false).fs
      60 false).alerts = 0 ∧
    (lock_phase ⟨0, 2⟩
      (lock_phase ⟨0, 2⟩ ⟨true, false, false, none, .enoent⟩ 0 false).fs
      60 false).fs =
      (lock_phase ⟨0, 2⟩ ⟨true, false, false, none, .enoent⟩ 0 false).fs ∧
    (lock_phase ⟨0, 2⟩
      (lock_phase ⟨0, 2⟩
        (lock_phase ⟨0, 2⟩ ⟨true, false, false, none, .enoent⟩ 0 false).fs
        60 false).fs 200 false).alerts = 1 ∧
    (lock_phase ⟨0, 2⟩
      (lock_phase ⟨0, 2⟩
        (lock_phase ⟨0, 2⟩ ⟨true, false, false, none, .enoent⟩ 0 false).fs
        60 false).fs 200 false).fs.alertFile = some 200 :=
  C4_alert_throttling ⟨0, 2⟩ ⟨true, false, false, none, .enoent⟩ 0 60 200
    false (by decide) (by decide) (by decide) (by decide) (by decide)
    (by decide) (by decide)

/-- C5 counterexample: the claim says that whenever the silence
semaphore is present no alert is sent, regardless of the alert file
being absent.  At the concrete contended state with the silence
semaphore present and the alert file absent, the first-contention
branch runs before the silence check and sends one alert. -/
theorem C5_counterexample :
    (lock_phase ⟨0, 2⟩ ⟨true, true, false, none, .enoent⟩ 5 false).alerts
      = 1 := by
  decide

/-- C5 amended: silencing suppresses alerts on every contention in
which the alert file is already present, regardless of its age, and
the process still exits with the lock-contention status; but when the
alert file is absent (first contention of the episode) the initial
alert is still sent despite the silence semaphore. -/
theorem C5_silencing_amended (cfg : Cfg) (fs : FS) (now : Nat) (u : Bool)
    (hheld : fs.lockdir = true) (hsil : fs.silenced = true) :
    (∀ m, fs.alertFile = some m → (lock_phase cfg fs now u).alerts = 0) ∧
    (fs.alertFile = none → (lock_phase cfg fs now u).alerts = 1) ∧
    (lock_phase cfg fs now u).exit = some LOCKFILE_EXITVAL := by
  refine ⟨?_, ?_, lock_phase_exit_held cfg fs now u hheld⟩
  · intro m hm
    by_cases h0 : cfg.if_running = 0
    · simp [lock_phase, hheld, hm, h0]
    · simp [lock_phase, hheld, hm, h0, FS.silencedExists, hsil]
  · intro hm
    simp [lock_phase, hheld, hm]

/-- Witness for C5 amended at a concrete state: silence semaphore
present, alert file present and already older than the window — no
alert, exit status 11. -/
theorem C5_silencing_amended_witness :
    (∀ m, (⟨true, true, false, some 0, .enoent⟩ : FS).alertFile = some m →
      (lock_phase ⟨0, 2⟩ ⟨true, true, false, some 0, .enoent⟩ 500
        false).alerts = 0) ∧
    ((⟨true, true, false, some 0, .enoent⟩ : FS).alertFile = none →
      (lock_phase ⟨0, 2⟩ ⟨true, true, false, some 0, .enoent⟩ 500
        false).alerts = 1) ∧
    (lock_phase ⟨0, 2⟩ ⟨true, true, false, some 0, .enoent⟩ 500
      false).exit = some LOCKFILE_EXITVAL :=
  C5_silencing_amended ⟨0, 2⟩ ⟨true, true, false, some 0, .enoent⟩ 500
    false (by decide) (by decide)

/-- C6 counterexample: the claim says that with the alert file present
and the disable semaphore present, no alert is sent.  At the concrete
state with the disable semaphore present, if_running = 1 and the alert
file 100 seconds old (older than the window), the code re-touches the
alert file and sends an alert anyway: the disable semaphore does not
suppress it. -/
theorem C6_counterexample :
    (lock_phase ⟨0, 1⟩ ⟨true, false, true, some 0, .enoent⟩ 100
      false).alerts = 1 := by
  decide

/-- C6 amended: on a contention, the disable semaphore has no effect on
whether an alert is sent (it only changes the message wording): the
result with any value of the disable flag sends the same number of
alerts as with the flag clear, the decision being governed solely by
if_running, the silence semaphore and the alert file age; and the
process exits with the lock-contention status. -/
theorem C6_disable_not_suppressing (cfg : Cfg) (fs : FS) (d : Bool)
    (now : Nat) (u : Bool) (hheld : fs.lockdir = true) :
    (lock_phase cfg { fs with disabled := d } now u).alerts =
      (lock_phase cfg { fs with disabled := false } now u).alerts ∧
    (lock_phase cfg { fs with disabled := d } now u).exit =
      some LOCKFILE_EXITVAL := by
  constructor
  · cases hm : fs.alertFile with
    | none => simp [lock_phase, hheld, hm]
    | some m =>
      by_cases h0 : cfg.if_running = 0
      · simp [lock_phase, hheld, hm, h0]
      · by_cases hs : fs.silenced
        · simp [lock_phase, hheld, hm, h0, hs, FS.silencedExists]
        · by_cases hn : file_newer_than now m cfg.if_running
          · simp [lock_phase, hheld, hm, h0, hs, hn, FS.silencedExists]
          · simp [lock_phase, hheld, hm, h0, hs, hn, FS.silencedExists]
  · exact lock_phase_exit_held cfg { fs with disabled := d } now u
      (by simpa using hheld)

/-- Witness for C6 amended at a concrete state: disable semaphore
present, stale alert file — same alert count as with it absent, exit
status 11. -/
theorem C6_disable_not_suppressing_witness :
    (lock_phase ⟨0, 1⟩
      { (⟨true, false, false, some 0, .enoent⟩ : FS) with disabled := true }
      100 false).alerts =
      (lock_phase ⟨0, 1⟩
        { (⟨true, false, false, some 0, .enoent⟩ : FS) with
            disabled := false } 100 false).alerts ∧
    (lock_phase ⟨0, 1⟩
      { (⟨true, false, false, some 0, .enoent⟩ : FS) with disabled := true }
      100 false).exit = some LOCKFILE_EXITVAL :=
  C6_disable_not_suppressing ⟨0, 1⟩ ⟨true, false, false, some 0, .enoent⟩
    true 100 false (by decide)

end Nori

namespace Nori

/-- C7: release (lockfile_cleanup): when the disable semaphore is
present inside the lock directory, the directory and its semaphore
children are left fully intact, whatever the removal outcome would
have been; otherwise a successful removal deletes the lock directory
and its children recursively; and a failed removal is silently ignored,
leaving the state unchanged — the function is total, so no error ever
propagates to the caller. -/
theorem C7_release_best_effort (fs : FS) (ok : Bool) :
    (fs.disabledExists = true → lockfile_cleanup ok fs = fs) ∧
    (fs.disabledExists = false →
      lockfile_cleanup true fs =
        { fs with lockdir := false, silenced := false, disabled := false }) ∧
    (fs.disabledExists = false → lockfile_cleanup false fs = fs) := by
  refine ⟨?_, ?_, ?_⟩ <;> intro h <;> simp [lockfile_cleanup, h]

/-- Witness for C7 at a concrete state: disable semaphore present, the
lock directory and both semaphore children survive cleanup intact. -/
theorem C7_release_best_effort_witness :
    lockfile_cleanup true ⟨true, true, true, some 3, .enoent⟩ =
      ⟨true, true, true, some 3, .enoent⟩ :=
  (C7_release_best_effort ⟨true, true, true, some 3, .enoent⟩ true).1
    (by decide)

/-- C8 counterexample: the claim says a failed (non-ENOENT) removal of
the stale alert file after successful acquisition is a recoverable
warning and execution continues into the task body.  At the concrete
state with the lock free, a stale alert file present and the unlink
failing, the code instead terminates with the startup-error status. -/
theorem C8_counterexample :
    (lock_phase ⟨0, 1⟩ ⟨false, false, false, some 0, .enoent⟩ 10
      true).exit = some STARTUP_EXITVAL := by
  decide

/-- C8 amended: when acquisition succeeds and a stale alert file
exists, a successful removal clears it and execution continues into the
task body (an informational message is logged); but a removal failure
other than ENOENT is fatal: it is logged and the process exits with the
startup-error status.  When no stale alert file exists, execution
continues with nothing to remove. -/
theorem C8_stale_marker_amended (cfg : Cfg) (fs : FS) (now : Nat)
    (hfree : fs.lockdir = false) :
    (∀ m, fs.alertFile = some m →
      lock_phase cfg fs now false =
        { exit := none, alerts := 0,
          fs := { fs with lockdir := true, alertFile := none } } ∧
      (lock_phase cfg fs now true).exit = some STARTUP_EXITVAL) ∧
    (∀ u, fs.alertFile = none →
      lock_phase cfg fs now u =
        { exit := none, alerts := 0, fs := { fs with lockdir := true } }) := by
  refine ⟨?_, ?_⟩
  · intro m hm
    constructor <;> simp [lock_phase, hfree, hm]
  · intro u hm
    simp [lock_phase, hfree, hm]

/-- Witness for C8 amended at a concrete state: lock free, stale alert
file present; successful removal continues, failed removal exits with
the startup-error status. -/
theorem C8_stale_marker_amended_witness :
    lock_phase ⟨0, 1⟩ ⟨false, false, false, some 0, .enoent⟩ 10 false =
      { exit := none, alerts := 0,
        fs := { (⟨false, false, false, some 0, .enoent⟩ : FS) with
                  lockdir := true, alertFile := none } } ∧
    (lock_phase ⟨0, 1⟩ ⟨false, false, false, some 0, .enoent⟩ 10
      true).exit = some STARTUP_EXITVAL :=
  (C8_stale_marker_amended ⟨0, 1⟩ ⟨false, false, false, some 0, .enoent⟩
    10 (by decide)).1 0 rfl

/-- C9 counterexample: the claim says every semaphore file, including
the alert file, exists only while the lock directory exists and is
removed with it.  At the concrete state with the lock directory present
and an alert file of mtime 7, cleanup removes the lock directory yet
the alert file survives: it is a sibling of the directory (default
path lockfile + .alert), not a child. -/
theorem C9_counterexample :
    (lockfile_cleanup true ⟨true, false, false, some 7, .enoent⟩).lockdir
        = false ∧
    (lockfile_cleanup true ⟨true, false, false, some 7, .enoent⟩).alertFile
        = some 7 := by
  decide

/-- C9 amended: the silence and disable semaphores, being children of
the lock directory, are removed together with it by cleanup (when the
disable semaphore is absent); the alert file, by default the sibling
path lockfile + .alert, survives the removal unchanged, and alert
state is instead reset by the next successful acquisition, which
unlinks the alert file. -/
theorem C9_semaphore_lifetime_amended (cfg : Cfg) (fs : FS) (now : Nat)
    (hnd : fs.disabledExists = false) :
    (lockfile_cleanup true fs).lockdir = false ∧
    (lockfile_cleanup true fs).silenced = false ∧
    (lockfile_cleanup true fs).disabled = false ∧
    (lockfile_cleanup true fs).alertFile = fs.alertFile ∧
    (fs.lockdir = false →
      (lock_phase cfg fs now false).fs.alertFile = none) := by
  refine ⟨?_, ?_, ?_, ?_, ?_⟩
  · simp [lockfile_cleanup, hnd]
  · simp [lockfile_cleanup, hnd]
  · simp [lockfile_cleanup, hnd]
  · simp [lockfile_cleanup, hnd]
  · intro hfree
    cases hm : fs.alertFile <;> simp [lock_phase, hfree, hm]

/-- Witness for C9 amended at a concrete state: lock directory present
with the silence semaphore and an alert file; cleanup removes the
directory and the silence semaphore but the alert file survives. -/
theorem C9_semaphore_lifetime_amended_witness :
    (lockfile_cleanup true ⟨true, true, false, some 7, .enoent⟩).lockdir
        = false ∧
    (lockfile_cleanup true ⟨true, true, false, some 7, .enoent⟩).silenced
        = false ∧
    (lockfile_cleanup true ⟨true, true, false, some 7, .enoent⟩).disabled
        = false ∧
    (lockfile_cleanup true ⟨true, true, false, some 7, .enoent⟩).alertFile
        = (⟨true, true, false, some 7, .enoent⟩ : FS).alertFile ∧
    ((⟨true, true, false, some 7, .enoent⟩ : FS).lockdir = false →
      (lock_phase ⟨0, 1⟩ ⟨true, true, false, some 7, .enoent⟩ 9
        false).fs.alertFile = none) :=
  C9_semaphore_lifetime_amended ⟨0, 1⟩ ⟨true, true, false, some 7, .enoent⟩
    9 (by decide)

/-- C10: each manual control operation invoked when the system is
already in its target state — silence with no lock directory or with
alerts already silenced, unsilence with alerts not silenced, disable
when already disabled, enable when not disabled — leaves the
filesystem unchanged and exits with the startup-error status 10, which
differs from the no-error status 0. -/
theorem C10_manual_ops_noop_exit (fs : FS) :
    (fs.lockdir = false →
      silence_lf_alerts fs = { exit := some STARTUP_EXITVAL, fs := fs }) ∧
    (fs.silencedExists = true →
      silence_lf_alerts fs = { exit := some STARTUP_EXITVAL, fs := fs }) ∧
    (fs.silencedExists = false →
      unsilence_lf_alerts fs = { exit := some STARTUP_EXITVAL, fs := fs }) ∧
    (fs.disabledExists = true →
      disable_script fs = { exit := some STARTUP_EXITVAL, fs := fs }) ∧
    (fs.disabledExists = false →
      enable_script fs = { exit := some STARTUP_EXITVAL, fs := fs }) ∧
    STARTUP_EXITVAL ≠ NO_ERROR_EXITVAL := by
  refine ⟨?_, ?_, ?_, ?_, ?_, by decide⟩
  · intro h
    simp [silence_lf_alerts, h]
  · intro h
    have hl : fs.lockdir = true := by
      have h2 := h
      simp [FS.silencedExists, Bool.and_eq_true] at h2
      exact h2.1
    simp [silence_lf_alerts, hl, h]
  · intro h
    simp [unsilence_lf_alerts, h]
  · intro h
    simp [disable_script, h]
  · intro h
    simp [enable_script, h]

/-- Witness for C10 at a concrete state with both semaphores present:
silencing again and disabling again both leave the state unchanged and
exit with status 10. -/
theorem C10_manual_ops_noop_exit_witness :
    silence_lf_alerts ⟨true, true, true, none, .enoent⟩ =
      { exit := some STARTUP_EXITVAL,
        fs := ⟨true, true, true, none, .enoent⟩ } ∧
    disable_script ⟨true, true, true, none, .enoent⟩ =
      { exit := some STARTUP_EXITVAL,
        fs := ⟨true, true, true, none, .enoent⟩ } :=
  ⟨(C10_manual_ops_noop_exit ⟨true, true, true, none, .enoent⟩).2.1
      (by decide),
   (C10_manual_ops_noop_exit ⟨true, true, true, none, .enoent⟩).2.2.2.1
      (by decide)⟩

end Nori
